import Mathlib

/-!
Verification of the Tutorial State Model of the "Slow LLM Coding Agent"
learning platform front-end.

The embedding follows `src/types.ts` (the `Speed`, `Diff`, `SpeedExplanations`,
`CodeState`, `Project`, `ChatMessage` declarations) and the persisted Zustand
store of `src/stores/projectStore.ts` (the version with `error`, `showDiff`
and the `persist` middleware, which is the current one).  JavaScript numbers
used as array indices are modelled as `Int` so that out-of-range and negative
indices are representable; JavaScript `Map` is modelled as an association
list; JavaScript array indexing (which yields `undefined` out of bounds) is
modelled with `Option`.
-/

namespace SlowLLM

/-- Type `Speed` from src/types.ts: speed levels for help intensity,
low, medium or high. -/
inductive Speed where
  | low
  | medium
  | high
  deriving DecidableEq, Repr

/-- Type `Language` from src/types.ts: python or javascript. -/
inductive Language where
  | python
  | javascript
  deriving DecidableEq, Repr

/-- Type `Difficulty` from src/types.ts: beginner, intermediate or advanced. -/
inductive Difficulty where
  | beginner
  | intermediate
  | advanced
  deriving DecidableEq, Repr

/-- Type `Diff` from src/types.ts: diff information showing what changed between
states (`added`/`removed` are arrays of line-content strings). -/
structure Diff where
  added : List String
  removed : List String
  deriving DecidableEq, Repr

/-- Type `SpeedExplanations` from src/types.ts: explanation text per speed level. -/
structure SpeedExplanations where
  low : String
  medium : String
  high : String
  deriving DecidableEq, Repr

/-- Lookup `explanations[speed]`, the bracket access used by
`getExplanation` in the store. -/
def SpeedExplanations.lookup (e : SpeedExplanations) : Speed → String
  | Speed.low => e.low
  | Speed.medium => e.medium
  | Speed.high => e.high

/-- Type `CodeState` from src/types.ts: a single code state in the project
timeline. -/
structure CodeState where
  id : Int
  title : String
  code : String
  explanation : String
  diff : Option Diff
  speedExplanations : SpeedExplanations
  deriving DecidableEq, Repr

/-- Type `Project` from src/types.ts: a complete learning project. -/
structure Project where
  id : String
  name : String
  description : String
  language : Language
  difficulty : Difficulty
  states : List CodeState
  deriving DecidableEq, Repr

/-- The user-or-assistant role union of `ChatMessage`. -/
inductive ChatRole where
  | user
  | assistant
  deriving DecidableEq, Repr

/-- Type `ChatMessage` from src/types.ts. -/
structure ChatMessage where
  id : String
  role : ChatRole
  content : String
  timestamp : Int
  stateId : Int
  deriving DecidableEq, Repr

/-- The mutable fields of the persisted `ProjectStore` in
src/stores/projectStore.ts (actions and getters are modelled as functions
below; `chatHistory : Map<number, ChatMessage[]>` is an association list). -/
structure ProjectStore where
  currentProject : Option Project
  currentStateIndex : Int
  isLoading : Bool
  error : Option String
  speed : Speed
  showDiff : Bool
  chatHistory : List (Int × List ChatMessage)
  deriving DecidableEq, Repr

/-- Type `PreferencesStore` from src/stores/projectStore.ts. -/
structure PreferencesStore where
  speed : Speed
  showDiff : Bool
  deriving DecidableEq, Repr

/-- Constant `defaultPreferences` from src/stores/projectStore.ts:
speed medium, showDiff true. -/
def defaultPreferences : PreferencesStore :=
  { speed := Speed.medium, showDiff := true }

/-- The initial state of the persisted store (`create(persist((set, get) => ({
currentProject: null, currentStateIndex: 0, isLoading: false, error: null,
speed: defaultPreferences.speed, showDiff: defaultPreferences.showDiff,
chatHistory: new Map() }, ...)))`). -/
def initialState : ProjectStore :=
  { currentProject := none
    currentStateIndex := 0
    isLoading := false
    error := none
    speed := defaultPreferences.speed
    showDiff := defaultPreferences.showDiff
    chatHistory := [] }

/-- The `speedLevels` configuration of src/components/ControlPanel.tsx:
`(value, label, description)` triples.  It labels `medium` as the
"Balanced" (middle) level. -/
def speedLevels : List (Speed × String × String) :=
  [ (Speed.low, "Brief", "AI leads")
  , (Speed.medium, "Balanced", "50/50")
  , (Speed.high, "Detailed", "You lead") ]

/-- Action `loadProject` from src/stores/projectStore.ts (persisted store).  The
module-level `projects: Record<string, Project>` is passed explicitly as an
association list; `projects[projectId]` is the record lookup.  On a hit it
sets the project, resets the cursor and chat history and clears the error;
on a miss it only sets `error` to a "not found" message. -/
def loadProject (projects : List (String × Project)) (projectId : String)
    (s : ProjectStore) : ProjectStore :=
  match List.lookup projectId projects with
  | some project =>
      { s with
        currentProject := some project
        currentStateIndex := 0
        chatHistory := []
        error := none }
  | none => { s with error := some ("Project not found: " ++ projectId) }

/-- Action `nextState` from src/stores/projectStore.ts: increments the cursor when a
project is loaded and `currentStateIndex < states.length - 1`. -/
def nextState (s : ProjectStore) : ProjectStore :=
  match s.currentProject with
  | some project =>
      if s.currentStateIndex < (project.states.length : Int) - 1 then
        { s with currentStateIndex := s.currentStateIndex + 1 }
      else s
  | none => s

/-- Action `prevState` from src/stores/projectStore.ts: decrements the cursor when
`currentStateIndex > 0` (no check of `currentProject`, exactly as in the
source). -/
def prevState (s : ProjectStore) : ProjectStore :=
  if s.currentStateIndex > 0 then
    { s with currentStateIndex := s.currentStateIndex - 1 }
  else s

/-- Action `jumpToState` from src/stores/projectStore.ts: sets the cursor to `index`
when a project is loaded and `index >= 0 && index < states.length`; otherwise
it does nothing. -/
def jumpToState (index : Int) (s : ProjectStore) : ProjectStore :=
  match s.currentProject with
  | some project =>
      if 0 ≤ index ∧ index < (project.states.length : Int) then
        { s with currentStateIndex := index }
      else s
  | none => s

/-- JavaScript array indexing `arr[i]` with a possibly negative or
out-of-range `number` index: yields `undefined` (here `none`) outside
`[0, length)`. -/
def jsIndex {α : Type} (l : List α) (i : Int) : Option α :=
  if 0 ≤ i then l[i.toNat]? else none

/-- JavaScript `a || b` on strings: the empty string is falsy. -/
def jsOrString (a b : String) : String :=
  if a = "" then b else a

/-- Getter `getCurrentState` from src/stores/projectStore.ts: `null` without a
project, otherwise `currentProject.states[currentStateIndex]` (which is
`undefined` when the index is out of range). -/
def getCurrentState (s : ProjectStore) : Option CodeState :=
  match s.currentProject with
  | none => none
  | some project => jsIndex project.states s.currentStateIndex

/-- Getter `getExplanation` from src/stores/projectStore.ts (persisted store):
the empty string without a project, otherwise
the stored explanation for the current speed, with the JavaScript or-empty-string default applied to it, where the state is `currentProject.states[currentStateIndex]` (possibly undefined). -/
def getExplanation (s : ProjectStore) : String :=
  match s.currentProject with
  | none => ""
  | some project =>
      match jsIndex project.states s.currentStateIndex with
      | none => ""
      | some st => jsOrString (st.speedExplanations.lookup s.speed) ""

/-- Getter `getTotalStates` from src/stores/projectStore.ts:
the length of the states of the current project, or 0 without one. -/
def getTotalStates (s : ProjectStore) : Nat :=
  match s.currentProject with
  | none => 0
  | some project => project.states.length

/-- Getter `isFirstState` from src/stores/projectStore.ts. -/
def isFirstState (s : ProjectStore) : Bool :=
  s.currentStateIndex == 0

/-- Getter `isLastState` from src/stores/projectStore.ts: `true` without a project,
otherwise `currentStateIndex === states.length - 1`. -/
def isLastState (s : ProjectStore) : Bool :=
  match s.currentProject with
  | none => true
  | some project => s.currentStateIndex == (project.states.length : Int) - 1

/-- One navigation call on the store: `nextState()`, `prevState()` or
`jumpToState(i)` with an arbitrary integer argument. -/
inductive NavOp where
  | next
  | prev
  | jump (index : Int)
  deriving DecidableEq, Repr

/-- Apply one navigation call. -/
def applyOp (op : NavOp) (s : ProjectStore) : ProjectStore :=
  match op with
  | NavOp.next => nextState s
  | NavOp.prev => prevState s
  | NavOp.jump i => jumpToState i s

/-- Apply a finite sequence of navigation calls, first element first. -/
def applyOps (ops : List NavOp) (s : ProjectStore) : ProjectStore :=
  match ops with
  | [] => s
  | op :: rest => applyOps rest (applyOp op s)

/-- Splitting a text on the newline character, as the diff code does. -/
def splitLines (text : String) : List String :=
  text.splitOn "\n"

/-- Modelled from the spec: the Diff Deriver
`computeDiff(previousText, currentText) -> {addedLines}` of spec section 4.2
is not implemented under src/ — only the `Diff` record type
(src/types.ts) and its highlight consumer `applyDiffHighlights`
(the CodeViewer component) appear there, the added-line lists being
pre-authored in the project JSON data.  Per the spec: split both texts into
ordered sequences of lines; a line of `currentText` is classified "added"
exactly when, after trimming surrounding whitespace, it is not found
anywhere among the lines of `previousText`. -/
def computeDiff (previousText currentText : String) : List String :=
  let prevTrimmed := (splitLines previousText).map String.trim
  (splitLines currentText).filter (fun line => decide (line.trim ∉ prevTrimmed))

/-- Function `applyDiffHighlights` from the CodeViewer component: the 1-based numbers
of the lines of `code` that receive the added-line decoration, namely those
whose trimmed form matches the trimmed form of some element of `diff.added`
(`diff.added.some(added => added.trim() === trimmedLine)`). -/
def applyDiffHighlights (code : String) (diff : Diff) : List Nat :=
  ((splitLines code).enum.filter
    (fun x => diff.added.any (fun a => a.trim == x.2.trim))).map
    (fun x => x.1 + 1)

/-! Sample data used by the witness theorems. -/

/-- Sample explanations for witnesses. -/
def sampleExpl0 : SpeedExplanations :=
  { low := "brief 0", medium := "balanced 0", high := "detailed 0" }

/-- Sample explanations for witnesses, state 1. -/
def sampleExpl1 : SpeedExplanations :=
  { low := "brief 1", medium := "", high := "detailed 1" }

/-- Sample code state 0. -/
def sampleState0 : CodeState :=
  { id := 0
    title := "Create the file"
    code := "print(\"hi\")"
    explanation := "start"
    diff := none
    speedExplanations := sampleExpl0 }

/-- Sample code state 1. -/
def sampleState1 : CodeState :=
  { id := 1
    title := "Add a greeting"
    code := "print(\"hi\")\nprint(\"bye\")"
    explanation := "greet"
    diff := some { added := ["print(\"bye\")"], removed := [] }
    speedExplanations := sampleExpl1 }

/-- A sample project with two states. -/
def sampleProject : Project :=
  { id := "greeter"
    name := "Build a Greeter"
    description := "sample"
    language := Language.python
    difficulty := Difficulty.beginner
    states := [sampleState0, sampleState1] }

/-- A sample projects record with one entry. -/
def sampleProjects : List (String × Project) :=
  [("greeter", sampleProject)]

/-- The store after loading the sample project into the initial state. -/
def sampleLoaded : ProjectStore :=
  loadProject sampleProjects "greeter" initialState

/-- The sample store with the cursor on state 1. -/
def sampleAt1 : ProjectStore :=
  { sampleLoaded with currentStateIndex := 1 }

/-! ## Theorems -/

/-- Navigation calls never change which project is loaded. -/
theorem applyOp_currentProject (op : NavOp) (s : ProjectStore) :
    (applyOp op s).currentProject = s.currentProject := by
  cases op <;> cases hp : s.currentProject <;>
    simp [applyOp, nextState, prevState, jumpToState, hp,
      apply_ite ProjectStore.currentProject]

/-- One navigation call keeps the cursor inside `[0, states.length - 1]`. -/
theorem applyOp_inRange (op : NavOp) (s : ProjectStore) (p : Project)
    (hp : s.currentProject = some p)
    (h0 : 0 ≤ s.currentStateIndex)
    (hlt : s.currentStateIndex < (p.states.length : Int)) :
    0 ≤ (applyOp op s).currentStateIndex ∧
      (applyOp op s).currentStateIndex < (p.states.length : Int) := by
  cases op <;>
    simp only [applyOp, nextState, prevState, jumpToState, hp] <;>
    split <;> (try simp) <;> omega

/-- A sequence of navigation calls keeps the loaded project and keeps the
cursor inside `[0, states.length - 1]`. -/
theorem applyOps_invariant (ops : List NavOp) (s : ProjectStore) (p : Project)
    (hp : s.currentProject = some p)
    (h0 : 0 ≤ s.currentStateIndex)
    (hlt : s.currentStateIndex < (p.states.length : Int)) :
    (applyOps ops s).currentProject = some p ∧
      0 ≤ (applyOps ops s).currentStateIndex ∧
      (applyOps ops s).currentStateIndex < (p.states.length : Int) := by
  induction ops generalizing s with
  | nil => exact ⟨hp, h0, hlt⟩
  | cons op rest ih =>
      have hp2 : (applyOp op s).currentProject = some p := by
        rw [applyOp_currentProject]; exact hp
      have h2 := applyOp_inRange op s p hp h0 hlt
      simpa only [applyOps] using ih (applyOp op s) hp2 h2.1 h2.2

/-- C1: for every loaded Project (a key found in the projects record, with a
non-empty state list) and every finite sequence of `nextState()`,
`prevState()` and `jumpToState(i)` calls with arbitrary integer arguments
(including negative and over-large indices), the field
`currentStateIndex` of the store remains in the range `[0, states.length - 1]`. -/
theorem navigation_index_in_range (projects : List (String × Project))
    (pid : String) (p : Project) (s : ProjectStore) (ops : List NavOp)
    (hfind : List.lookup pid projects = some p) (hne : p.states ≠ []) :
    0 ≤ (applyOps ops (loadProject projects pid s)).currentStateIndex ∧
      (applyOps ops (loadProject projects pid s)).currentStateIndex <
        (p.states.length : Int) := by
  have hp : (loadProject projects pid s).currentProject = some p := by
    simp [loadProject, hfind]
  have hidx : (loadProject projects pid s).currentStateIndex = 0 := by
    simp [loadProject, hfind]
  have hlen : 0 < p.states.length := List.length_pos.mpr hne
  have h := applyOps_invariant ops (loadProject projects pid s) p hp
    (by simp [hidx]) (by rw [hidx]; exact_mod_cast hlen)
  exact ⟨h.2.1, h.2.2⟩

/-- Witness for C1: loading the sample project and running a sequence of
navigation calls with out-of-range and negative indices keeps the cursor in
range. -/
theorem navigation_index_in_range_witness :
    0 ≤ (applyOps [NavOp.next, NavOp.jump 99, NavOp.prev, NavOp.jump (-1)]
        (loadProject sampleProjects "greeter" initialState)).currentStateIndex ∧
      (applyOps [NavOp.next, NavOp.jump 99, NavOp.prev, NavOp.jump (-1)]
        (loadProject sampleProjects "greeter" initialState)).currentStateIndex <
        (sampleProject.states.length : Int) :=
  navigation_index_in_range sampleProjects "greeter" sampleProject initialState
    [NavOp.next, NavOp.jump 99, NavOp.prev, NavOp.jump (-1)]
    (by decide) (by decide)

/-- C2: the diff computation splits both texts into lines and classifies a
line of `currentText` as added exactly when its whitespace-trimmed form does
not occur, at any position, among the whitespace-trimmed lines of
`previousText`; in particular a line whose trimmed form occurs anywhere in
`previousText` is never classified as added. -/
theorem computeDiff_added_iff (prev curr line : String) :
    line ∈ computeDiff prev curr ↔
      line ∈ splitLines curr ∧
        line.trim ∉ (splitLines prev).map String.trim := by
  simp [computeDiff, List.mem_filter]

/-- C3: with a loaded project, `jumpToState(i)` sets the cursor to `i` when
`0 <= i < states.length`, and otherwise leaves the entire store state
unchanged (so no error is recorded either). -/
theorem jumpToState_in_range_sets_else_noop (s : ProjectStore) (p : Project)
    (i : Int) (hp : s.currentProject = some p) :
    (0 ≤ i → i < (p.states.length : Int) →
      (jumpToState i s).currentStateIndex = i) ∧
    (¬ (0 ≤ i ∧ i < (p.states.length : Int)) → jumpToState i s = s) := by
  constructor
  · intro h0 hlt
    simp [jumpToState, hp, h0, hlt]
  · intro h
    simp [jumpToState, hp, h]

/-- Witness for C3, at index 1 of the two-state sample project. -/
theorem jumpToState_in_range_sets_else_noop_witness :
    ((0 ≤ (1 : Int) → (1 : Int) < (sampleProject.states.length : Int) →
        (jumpToState 1 sampleLoaded).currentStateIndex = 1) ∧
      (¬ (0 ≤ (1 : Int) ∧ (1 : Int) < (sampleProject.states.length : Int)) →
        jumpToState 1 sampleLoaded = sampleLoaded)) :=
  jumpToState_in_range_sets_else_noop sampleLoaded sampleProject 1 (by decide)

/-- C5: for every key found in the projects record, `loadProject` sets
`currentStateIndex` to 0 and `currentProject` to that project, whatever the
previous store state was. -/
theorem loadProject_found_resets_cursor (projects : List (String × Project))
    (pid : String) (p : Project) (s : ProjectStore)
    (h : List.lookup pid projects = some p) :
    (loadProject projects pid s).currentStateIndex = 0 ∧
      (loadProject projects pid s).currentProject = some p := by
  simp [loadProject, h]

/-- Witness for C5: reloading the sample project from a store whose cursor
sits at index 1 resets the cursor to 0. -/
theorem loadProject_found_resets_cursor_witness :
    (loadProject sampleProjects "greeter" sampleAt1).currentStateIndex = 0 ∧
      (loadProject sampleProjects "greeter" sampleAt1).currentProject =
        some sampleProject :=
  loadProject_found_resets_cursor sampleProjects "greeter" sampleProject
    sampleAt1 (by decide)

/-- C7: for every key not found in the projects record, `loadProject` sets
the `error` field of the store to a "not found" message the caller can read. -/
theorem loadProject_missing_reports_error (projects : List (String × Project))
    (pid : String) (s : ProjectStore)
    (h : List.lookup pid projects = none) :
    (loadProject projects pid s).error =
      some ("Project not found: " ++ pid) := by
  simp [loadProject, h]

/-- Witness for C7, with a key absent from the sample record. -/
theorem loadProject_missing_reports_error_witness :
    (loadProject sampleProjects "unknown" sampleLoaded).error =
      some ("Project not found: " ++ "unknown") :=
  loadProject_missing_reports_error sampleProjects "unknown" sampleLoaded
    (by decide)

/-- C8: on first run the preference fields initialize to their defaults: the
detail-level preference to `medium` — the level the control panel labels
"Balanced" — and the diff-visibility flag to `true`. -/
theorem preferences_default_values :
    defaultPreferences.speed = Speed.medium ∧
      defaultPreferences.showDiff = true ∧
      initialState.speed = Speed.medium ∧
      initialState.showDiff = true ∧
      (Speed.medium, "Balanced", "50/50") ∈ speedLevels := by
  refine ⟨rfl, rfl, rfl, rfl, ?_⟩
  simp [speedLevels]

/-- C9: `loadProject` is atomic on failure: for a key not found in the
projects record it leaves `currentProject`, `currentStateIndex`,
`chatHistory`, `speed` and `showDiff` unchanged (only `error` is written). -/
theorem loadProject_missing_preserves_state (projects : List (String × Project))
    (pid : String) (s : ProjectStore)
    (h : List.lookup pid projects = none) :
    (loadProject projects pid s).currentProject = s.currentProject ∧
      (loadProject projects pid s).currentStateIndex = s.currentStateIndex ∧
      (loadProject projects pid s).chatHistory = s.chatHistory ∧
      (loadProject projects pid s).speed = s.speed ∧
      (loadProject projects pid s).showDiff = s.showDiff := by
  simp [loadProject, h]

/-- Witness for C9, with a key absent from the sample record. -/
theorem loadProject_missing_preserves_state_witness :
    (loadProject sampleProjects "missing" sampleAt1).currentProject =
        sampleAt1.currentProject ∧
      (loadProject sampleProjects "missing" sampleAt1).currentStateIndex =
        sampleAt1.currentStateIndex ∧
      (loadProject sampleProjects "missing" sampleAt1).chatHistory =
        sampleAt1.chatHistory ∧
      (loadProject sampleProjects "missing" sampleAt1).speed =
        sampleAt1.speed ∧
      (loadProject sampleProjects "missing" sampleAt1).showDiff =
        sampleAt1.showDiff :=
  loadProject_missing_preserves_state sampleProjects "missing" sampleAt1
    (by decide)

/-- C10: before any project is loaded the read accessors degrade totally:
`getCurrentState` returns `none`, `getExplanation` returns the empty string,
`getTotalStates` returns 0 and `isLastState` returns `true`. -/
theorem accessors_total_without_project (s : ProjectStore)
    (hp : s.currentProject = none) :
    getCurrentState s = none ∧ getExplanation s = "" ∧
      getTotalStates s = 0 ∧ isLastState s = true := by
  simp [getCurrentState, getExplanation, getTotalStates, isLastState, hp]

/-- C4: with a loaded project and an in-range cursor, `nextState()` lands on
the same `currentStateIndex` as `jumpToState(currentStateIndex + 1)` and
`prevState()` on the same one as `jumpToState(currentStateIndex - 1)`; in
particular `nextState()` at the last index and `prevState()` at index 0
leave the cursor unchanged. -/
theorem nextState_prevState_equiv_jumpToState (s : ProjectStore) (p : Project)
    (hp : s.currentProject = some p)
    (h0 : 0 ≤ s.currentStateIndex)
    (hlt : s.currentStateIndex < (p.states.length : Int)) :
    (nextState s).currentStateIndex =
        (jumpToState (s.currentStateIndex + 1) s).currentStateIndex ∧
      (prevState s).currentStateIndex =
        (jumpToState (s.currentStateIndex - 1) s).currentStateIndex ∧
      (s.currentStateIndex = (p.states.length : Int) - 1 →
        (nextState s).currentStateIndex = s.currentStateIndex) ∧
      (s.currentStateIndex = 0 →
        (prevState s).currentStateIndex = s.currentStateIndex) := by
  simp only [nextState, prevState, jumpToState, hp]
  refine ⟨?_, ?_, fun hlast => ?_, fun hzero => ?_⟩ <;>
    simp only [apply_ite ProjectStore.currentStateIndex] <;>
    split_ifs <;> (try simp) <;> omega

/-- Witness for C4, at index 1 (the last index) of the sample project. -/
theorem nextState_prevState_equiv_jumpToState_witness :
    (nextState sampleAt1).currentStateIndex =
        (jumpToState (sampleAt1.currentStateIndex + 1)
          sampleAt1).currentStateIndex ∧
      (prevState sampleAt1).currentStateIndex =
        (jumpToState (sampleAt1.currentStateIndex - 1)
          sampleAt1).currentStateIndex ∧
      (sampleAt1.currentStateIndex = (sampleProject.states.length : Int) - 1 →
        (nextState sampleAt1).currentStateIndex =
          sampleAt1.currentStateIndex) ∧
      (sampleAt1.currentStateIndex = 0 →
        (prevState sampleAt1).currentStateIndex =
          sampleAt1.currentStateIndex) :=
  nextState_prevState_equiv_jumpToState sampleAt1 sampleProject
    (by decide) (by decide) (by decide)

/-- C6: with a loaded project and an in-range cursor, `getExplanation()`
returns exactly the string stored at
`states[currentStateIndex].speedExplanations[speed]`, with no transformation
and no fallback to another level, including when that stored string is
empty. -/
theorem getExplanation_exact (s : ProjectStore) (p : Project) (i : Nat)
    (hi : i < p.states.length) (hp : s.currentProject = some p)
    (hidx : s.currentStateIndex = (i : Int)) :
    getExplanation s =
      (p.states.get ⟨i, hi⟩).speedExplanations.lookup s.speed := by
  have hj : jsIndex p.states s.currentStateIndex =
      some (p.states.get ⟨i, hi⟩) := by
    simp [jsIndex, hidx, List.getElem?_eq_getElem hi]
  simp only [getExplanation, hp, hj, jsOrString]
  split <;> simp_all

/-- Witness for C6, at index 1 of the sample project, where the stored
medium-level explanation is the empty string. -/
theorem getExplanation_exact_witness :
    getExplanation sampleAt1 =
      (sampleProject.states.get ⟨1, by decide⟩).speedExplanations.lookup
        sampleAt1.speed :=
  getExplanation_exact sampleAt1 sampleProject 1 (by decide) (by decide)
    (by decide)

/-- Witness for C10, at the initial store state. -/
theorem accessors_total_without_project_witness :
    getCurrentState initialState = none ∧ getExplanation initialState = "" ∧
      getTotalStates initialState = 0 ∧ isLastState initialState = true :=
  accessors_total_without_project initialState (by decide)

end SlowLLM
